import Mathlib

/-!
Verification development for the `faiss-rag-agent` repository.

The definitions below are a shallow embedding of the query pipeline in
`src/lambda/query_handler.py` and of the offline index builders in
`src/scripts/build_faiss_index.py` / `src/scripts/resumable_faiss_builder.py`.

Modelling conventions:
* Python dicts serialized with `json.dumps` are modelled by association lists
  of `String × JVal`; Python lists by Lean lists.
* FAISS distances are modelled as rationals (the code applies no arithmetic
  to them other than copying, so the float representation is irrelevant to
  every claim treated here).
* The output of `index.search(query_embedding.reshape(1, -1), k)` is an
  external input (FAISS is a collaborator library): it is passed in as a
  list of `(distance, label)` pairs of length `k`.  FAISS returns the label
  `-1` for a slot when the index holds fewer than `k` vectors.
* External stores (DynamoDB usage table, S3 bucket, Bedrock) are passed in
  as explicit oracle values; a `*Fails` flag injects the exception paths of
  the corresponding boto3 call.
* Fallible Python code (exceptions) is modelled with `Except`.
* Observability-only output (print statements, response headers, the
  `user_context` sub-dict) is omitted; it is not referenced by any claim.
-/

/-- A JSON value, the codomain of `json.dumps`/`json.loads` as used by the
handler (strings, numbers, booleans, arrays, objects). -/
inductive JVal where
  | str (s : String)
  | num (q : ℚ)
  | jbool (b : Bool)
  | arr (xs : List JVal)
  | obj (fields : List (String × JVal))

/-- A metadata record: a Python dict of named fields (`repository`, etc.). -/
abbrev Record := List (String × JVal)

/-- Python dict assignment `d[k] = v`: replace the value in place if the key
exists, otherwise append the new key at the end. -/
def dictSet (r : Record) (k : String) (v : JVal) : Record :=
  if r.any (fun p => p.1 == k) then
    r.map (fun p => if p.1 == k then (k, v) else p)
  else
    r ++ [(k, v)]

/-- Python list subscript `xs[i]` with negative-index wrapping:
`0 ≤ i < len` reads position `i`; `-len ≤ i < 0` reads position `len + i`;
anything else raises `IndexError` (modelled as `none`). -/
def pyGet {α : Type} (xs : List α) (i : Int) : Option α :=
  if 0 ≤ i then xs.get? i.toNat
  else if (-i).toNat ≤ xs.length then xs.get? (xs.length - (-i).toNat)
  else none

/-- Shallow embedding of `search_faiss` (src/lambda/query_handler.py,
lines 243-259).  `searchOut` is the `(distances[0][i], indices[0][i])`
sequence produced by `index.search(..., k)` (length `k`).  For each pair the
code keeps the record when `idx < len(metadata)` (a Python `<` on a possibly
negative label), copies it and stores the raw distance under the key
`"score"`.  An out-of-range subscript raises `IndexError`, which propagates
to the caller. -/
def search_faiss : List (ℚ × Int) → List Record → Except String (List Record)
  | [], _ => .ok []
  | (d, idx) :: rest, metadata =>
    if idx < (metadata.length : Int) then
      match pyGet metadata idx with
      | some r =>
        match search_faiss rest metadata with
        | .ok results => .ok (dictSet r "score" (.num d) :: results)
        | .error e => .error e
      | none => .error "IndexError"
    else
      search_faiss rest metadata

/-- The deserialized FAISS index, observed through its vector count
(`index.ntotal`), the only attribute the handler reads. -/
structure FaissIndex where
  ntotal : Nat
deriving DecidableEq

/-- The process-global `index_cache`/`metadata_cache` pair keyed by org. -/
abbrev OrgCache := List (String × (FaissIndex × List Record))

/-- Shallow embedding of `load_index_for_org` (src/lambda/query_handler.py,
lines 178-221).  On a cache hit the cached pair is returned unchanged; on a
miss both artifacts are fetched from S3 (a missing object makes
`download_file` raise, surfacing as an error), deserialized, cached and
returned.  The source performs no consistency check between `index.ntotal`
and `len(metadata)` and defines no `IndexCorruptError`. -/
def load_index_for_org (cache : OrgCache)
    (s3 : String → Option (FaissIndex × List Record)) (org : String) :
    Except String ((FaissIndex × List Record) × OrgCache) :=
  match cache.lookup org with
  | some pair => .ok (pair, cache)
  | none =>
    match s3 org with
    | none => .error "IndexUnavailable"
    | some pair => .ok (pair, (org, pair) :: cache)

/-- The tier-limit table of `check_usage_limits` (lines 107-113):
`limits.get(tier, 3)` with `pro` mapped to `float('inf')`, modelled as
`none`. -/
def limits_get (tier : String) : Option Nat :=
  if tier = "anonymous" then some 3
  else if tier = "free" then some 10
  else if tier = "pro" then none
  else some 3

/-- The `searches_remaining` field: a finite count or the string
`'unlimited'`. -/
inductive Remaining where
  | fin (n : Nat)
  | unlimited
deriving DecidableEq

/-- The dict returned by `check_usage_limits` (minus the observability-only
`user_context`). -/
structure UsageInfo where
  allowed : Bool
  searches_used : Nat
  searches_remaining : Remaining
  tier : String
  upgrade_needed : Bool
deriving DecidableEq

/-- Shallow embedding of `check_usage_limits` (src/lambda/query_handler.py,
lines 86-143).  `read_result` is the outcome of the `table.get_item` call:
`.ok item` carries today's record (`none` when absent, count read as 0), and
`.error` is any exception from the counter store, which the source catches
and converts to a fail-open allow with a default quota. -/
def check_usage_limits (read_result : Except Unit (Option Nat))
    (tier : String) : UsageInfo :=
  match read_result with
  | .error _ =>
    ⟨true, 0, .fin (if tier = "anonymous" then 3 else 10), tier, false⟩
  | .ok item =>
    let current_count := item.getD 0
    match limits_get tier with
    | none => ⟨true, current_count, .unlimited, tier, false⟩
    | some limit =>
      ⟨decide (current_count < limit), current_count,
        .fin (limit - current_count), tier, decide (limit ≤ current_count)⟩

/-- Shallow embedding of one whole `increment_usage` call
(src/lambda/query_handler.py, lines 145-176), with injected store failures.
`put_fails` makes the conditional `put_item` raise a non-conditional store
error (caught by the generic `except Exception` clause, which only logs);
otherwise the put succeeds when no record exists, and raises
`ConditionalCheckFailedException` when one does, in which case `update_item`
runs (`ADD count 1`).  An exception raised by `update_item` occurs inside
the first `except` block, so the later `except Exception` clause of the same
`try` does not catch it: it propagates to the caller. -/
def increment_usage (store : Option Nat) (put_fails upd_fails : Bool) :
    Except String (Option Nat) :=
  if put_fails then .ok store
  else
    match store with
    | none => .ok (some 1)
    | some c => if upd_fails then .error "update_item failed" else .ok (some (c + 1))

/-- The store transformation of one failure-free `increment_usage` call. -/
def increment_applied (s : Option Nat) : Option Nat :=
  match increment_usage s false false with
  | .ok s2 => s2
  | .error _ => s

/-- The text `get_embedding` (src/lambda/query_handler.py, lines 223-241)
submits to the embedding backend: `json.dumps` of the untouched input, with
no truncation applied. -/
def get_embedding_submitted (text : List Char) : List Char := text

/-- The text the offline builder `generate_embeddings`
(src/scripts/build_faiss_index.py, lines 19-43) submits per document:
`text[:8000]`. -/
def generate_embeddings_submitted (text : List Char) : List Char :=
  text.take 8000

/-- External calls issued while handling one request, in program order. -/
inductive Eff where
  | resolveIdentity
  | usageRead
  | usageWrite
  | indexLoad
  | embedCall
  | faissSearch
  | llmCall
deriving DecidableEq

/-- An HTTP-style Lambda proxy response: status code plus the JSON object
passed to `json.dumps` for the body. -/
structure Resp where
  statusCode : Nat
  body : List (String × JVal)

/-- The parsed request body: `body.get('query', '')`,
`body.get('org', 'aws-samples')`, `body.get('k', 5)`. -/
structure RequestBody where
  queryField : Option String
  orgField : Option String
  kField : Option Nat

/-- The external world one request runs against: the resolved tier, today's
usage record, failure-injection flags for each store call, the S3 bucket
contents, the FAISS search output and the synthesized answer. -/
structure Env where
  tier : String
  usage : Option Nat
  usageReadFails : Bool
  putFails : Bool
  updFails : Bool
  s3 : String → Option (FaissIndex × List Record)
  embedFails : Bool
  faissOut : List (ℚ × Int)
  llmFails : Bool
  answer : String
  elapsed : ℚ

/-- To-JSON for `searches_remaining` (the source stores the literal string
`'unlimited'` for the infinite case). -/
def remaining_to_jval : Remaining → JVal
  | .fin n => .num n
  | .unlimited => .str "unlimited"

/-- To-JSON for the usage dict embedded in response bodies. -/
def usage_to_jval (u : UsageInfo) : JVal :=
  .obj [("allowed", .jbool u.allowed),
        ("searches_used", .num u.searches_used),
        ("searches_remaining", remaining_to_jval u.searches_remaining),
        ("tier", .str u.tier),
        ("upgrade_needed", .jbool u.upgrade_needed)]

/-- The in-place usage_info adjustment after a successful increment
(src/lambda/query_handler.py, lines 372-375). -/
def adjust_after_increment (u : UsageInfo) : UsageInfo :=
  match u.searches_remaining with
  | .unlimited => { u with searches_used := u.searches_used + 1 }
  | .fin r =>
    { u with searches_used := u.searches_used + 1,
             searches_remaining := .fin (r - 1),
             upgrade_needed := decide (r - 1 = 0) }

/-- The 429 upsell message (lines 346-352). -/
def upgrade_message (tier : String) : String :=
  if tier = "anonymous" then
    "You have reached your search limit. Register for 10 free searches per day!"
  else
    "You have reached your search limit. Upgrade to Pro for unlimited searches!"

/-- The 429 upgrade link (lines 349-352). -/
def upgrade_url (tier : String) : String :=
  if tier = "anonymous" then "https://marketplace.cloudnestle.com/register"
  else "https://marketplace.cloudnestle.com/solutions/61deb2fb-6e5e-4cda-ac5d-ff20202a8788"

/-- Shallow embedding of `lambda_handler` (src/lambda/query_handler.py,
lines 312-417) over an already-parsed request body.  The second component
is the trace of external calls issued, in program order.  The outer
`try/except` of the source converts any exception raised by a pipeline step
into a 500 response whose body carries the exception text. -/
def lambda_handler (req : RequestBody) (env : Env) (cache : OrgCache) :
    Resp × List Eff :=
  let query := req.queryField.getD ""
  let org := req.orgField.getD "aws-samples"
  if query = "" then
    (⟨400, [("error", .str "Query parameter required")]⟩, [])
  else
    let read_result : Except Unit (Option Nat) :=
      if env.usageReadFails then .error () else .ok env.usage
    let usage_info := check_usage_limits read_result env.tier
    if usage_info.allowed = false then
      (⟨429, [("error", .str "Usage limit exceeded"),
              ("message", .str (upgrade_message env.tier)),
              ("usage", usage_to_jval usage_info),
              ("upgrade_url", .str (upgrade_url env.tier))]⟩,
       [.resolveIdentity, .usageRead])
    else
      match increment_usage env.usage env.putFails env.updFails with
      | .error e =>
        (⟨500, [("error", .str e)]⟩, [.resolveIdentity, .usageRead, .usageWrite])
      | .ok _ =>
        let usage_info2 := adjust_after_increment usage_info
        match load_index_for_org cache env.s3 org with
        | .error e =>
          (⟨500, [("error", .str e)]⟩,
           [.resolveIdentity, .usageRead, .usageWrite, .indexLoad])
        | .ok ((_, metadata), _) =>
          if env.embedFails then
            (⟨500, [("error", .str "EmbeddingFailed")]⟩,
             [.resolveIdentity, .usageRead, .usageWrite, .indexLoad, .embedCall])
          else
            match search_faiss env.faissOut metadata with
            | .error e =>
              (⟨500, [("error", .str e)]⟩,
               [.resolveIdentity, .usageRead, .usageWrite, .indexLoad,
                .embedCall, .faissSearch])
            | .ok results =>
              if env.llmFails then
                (⟨500, [("error", .str "SynthesisFailed")]⟩,
                 [.resolveIdentity, .usageRead, .usageWrite, .indexLoad,
                  .embedCall, .faissSearch, .llmCall])
              else
                (⟨200, [("answer", .str env.answer),
                        ("results", .arr (results.map JVal.obj)),
                        ("usage", usage_to_jval usage_info2),
                        ("org", .str org),
                        ("total_time", .num env.elapsed)]⟩,
                 [.resolveIdentity, .usageRead, .usageWrite, .indexLoad,
                  .embedCall, .faissSearch, .llmCall])

/-!
Fine-grained concurrency model for `increment_usage`.

Each concurrent `increment_usage(identity, date)` call performs up to two
store operations, each atomic at DynamoDB: first a conditional
`put_item(count=1, ConditionExpression='attribute_not_exists(user_id)')`,
which succeeds only when the keyed item is absent, and — when that raises
`ConditionalCheckFailedException` because the item exists — an
`update_item` with `ADD count 1`, an atomic server-side add (which would
also create the attribute at 1 if it were missing).  A system state is the
store cell for the one `(identity, date)` key in play plus the phase of
every in-flight call; a step is one atomic store operation of one call, and
steps of different calls interleave arbitrarily.
-/

/-- Phase of one in-flight `increment_usage` call. -/
inductive ProcPhase where
  | start
  | needsAdd
  | done
deriving DecidableEq

/-- Global state: the `(identity, date)` counter cell (`none` = no record)
and the phases of the N concurrent calls. -/
structure CState where
  store : Option Nat
  procs : List ProcPhase

/-- Number of calls that have completed. -/
def countDone : List ProcPhase → Nat
  | [] => 0
  | p :: rest => (if p = ProcPhase.done then 1 else 0) + countDone rest

/-- One atomic store operation of one in-flight call (interleaving
semantics of `increment_usage`, src/lambda/query_handler.py lines 156-174).

* `create`: the conditional `put_item` finds no record, writes `count = 1`
  and the call completes.
* `condFail`: the conditional `put_item` finds a record; DynamoDB raises
  `ConditionalCheckFailedException` and the call proceeds to `update_item`.
* `add`: the `update_item` performs its atomic `ADD count 1` and the call
  completes. -/
inductive IncStep : CState → CState → Prop where
  | create (i : Nat) (procs : List ProcPhase)
      (h : procs.get? i = some ProcPhase.start) :
      IncStep ⟨none, procs⟩ ⟨some 1, procs.set i ProcPhase.done⟩
  | condFail (i c : Nat) (procs : List ProcPhase)
      (h : procs.get? i = some ProcPhase.start) :
      IncStep ⟨some c, procs⟩ ⟨some c, procs.set i ProcPhase.needsAdd⟩
  | add (i : Nat) (st : Option Nat) (procs : List ProcPhase)
      (h : procs.get? i = some ProcPhase.needsAdd) :
      IncStep ⟨st, procs⟩ ⟨some (st.getD 0 + 1), procs.set i ProcPhase.done⟩

/-- Fixture: a metadata record as produced by `transform_data.py`. -/
def recA : Record := [("repository", JVal.str "repo-a")]

/-- Fixture: a second metadata record. -/
def recB : Record := [("repository", JVal.str "repo-b")]

/-- Fixture: an S3 bucket whose index artifact holds 2 vectors while the
parallel record array holds a single record. -/
def s3_mismatch : String → Option (FaissIndex × List Record) :=
  fun o => if o == "acme" then some (⟨2⟩, [recA]) else none

/-- Fixture: a fully healthy external world for one request. -/
def env_success : Env :=
  { tier := "anonymous"
    usage := none
    usageReadFails := false
    putFails := false
    updFails := false
    s3 := fun o => if o == "aws-samples" then some (⟨1⟩, [recA]) else none
    embedFails := false
    faissOut := [(2, 0)]
    llmFails := false
    answer := "Based on the search results, repo-a is most relevant."
    elapsed := 1 }

/-- Fixture: a request body carrying a non-empty query, no org override and
`k = 1`. -/
def req_query : RequestBody :=
  { queryField := some "Show me serverless Lambda examples with DynamoDB"
    orgField := none
    kField := some 1 }

/-- Fixture: healthy world except the usage-counter read raises. -/
def env_read_fail : Env := { env_success with usageReadFails := true }

/-- Fixture: healthy world except the conditional `put_item` raises a
non-conditional store error. -/
def env_put_fail : Env := { env_success with putFails := true }

/-- Fixture: the usage record already exists (count 1) and the
`update_item` call raises. -/
def env_upd_fail : Env := { env_success with usage := some 1, updFails := true }

/-!
Helper lemmas.
-/

/-- Setting a non-`done` slot adjusts the completed-call count by the value
of the new phase. -/
theorem countDone_set (l : List ProcPhase) (i : Nat) (a b : ProcPhase)
    (ha : l.get? i = some a) (haD : a ≠ ProcPhase.done) :
    countDone (l.set i b)
      = countDone l + (if b = ProcPhase.done then 1 else 0) := by
  induction l generalizing i with
  | nil => simp at ha
  | cons p rest ih =>
    cases i with
    | zero =>
      simp only [List.get?, Option.some.injEq] at ha
      subst ha
      by_cases hb : b = ProcPhase.done
      · simp [countDone, hb, haD]
        omega
      · simp [countDone, hb, haD]
    | succ n =>
      simp only [List.get?] at ha
      simp only [List.set, countDone]
      rw [ih n ha, Nat.add_assoc]

/-- One atomic step preserves the counting invariant: the stored count
always equals the initial count plus the number of completed calls. -/
theorem inc_step_inv {s t : CState} (C : Nat) (h : IncStep s t)
    (hs : s.store.getD 0 = C + countDone s.procs) :
    t.store.getD 0 = C + countDone t.procs := by
  cases h with
  | create i procs hp =>
    have hset := countDone_set procs i ProcPhase.start ProcPhase.done hp (by decide)
    simp at hs hset ⊢
    omega
  | condFail i c procs hp =>
    have hset := countDone_set procs i ProcPhase.start ProcPhase.needsAdd hp (by decide)
    simp at hs hset ⊢
    omega
  | add i st procs hp =>
    have hset := countDone_set procs i ProcPhase.needsAdd ProcPhase.done hp (by decide)
    simp at hs hset ⊢
    omega

/-- Steps never change the number of in-flight calls. -/
theorem inc_step_length {s t : CState} (h : IncStep s t) :
    t.procs.length = s.procs.length := by
  cases h <;> simp

/-- Before any step runs, no call has completed. -/
theorem countDone_replicate_start (n : Nat) :
    countDone (List.replicate n ProcPhase.start) = 0 := by
  induction n with
  | zero => rfl
  | succ m ih => simp [List.replicate_succ, countDone, ih]

/-- When every call has completed, the completed-call count is the number of
calls. -/
theorem countDone_all_done (l : List ProcPhase)
    (h : ∀ p ∈ l, p = ProcPhase.done) : countDone l = l.length := by
  induction l with
  | nil => rfl
  | cons p rest ih =>
    have hp := h p (List.mem_cons_self p rest)
    subst hp
    have := ih (fun q hq => h q (List.mem_cons_of_mem _ hq))
    simp [countDone, this]
    omega

/-- A successful Python subscript reads an element of the list. -/
theorem pyGet_mem {α : Type} {xs : List α} {i : Int} {r : α}
    (h : pyGet xs i = some r) : r ∈ xs := by
  unfold pyGet at h
  split at h
  · exact List.get?_mem h
  · split at h
    · exact List.get?_mem h
    · cases h

/-!
Claim theorems.
-/

/-- C3: for every identity and date, N concurrent `increment_usage` calls
starting from count C (including the first-request-of-the-day case where no
record exists and the store holds `none`) end, under every interleaving of
their atomic store operations, with the persisted count equal to exactly
C + N — the conditional-create-then-atomic-add pattern loses no update. -/
theorem increment_usage_no_lost_updates (C N : Nat) (s0 sf : CState)
    (hstore : s0.store.getD 0 = C)
    (hprocs : s0.procs = List.replicate N ProcPhase.start)
    (hreach : Relation.ReflTransGen IncStep s0 sf)
    (hdone : ∀ p ∈ sf.procs, p = ProcPhase.done) :
    sf.store.getD 0 = C + N := by
  have key : sf.store.getD 0 = C + countDone sf.procs ∧ sf.procs.length = N := by
    clear hdone
    induction hreach with
    | refl =>
      constructor
      · rw [hstore, hprocs, countDone_replicate_start]
        omega
      · rw [hprocs, List.length_replicate]
    | tail hsteps hstep ih =>
      exact ⟨inc_step_inv C hstep ih.1, (inc_step_length hstep).trans ih.2⟩
  obtain ⟨k1, k2⟩ := key
  rw [countDone_all_done sf.procs hdone, k2] at k1
  exact k1

/-- Witness for C3: two concurrent calls race on the first request of the
day — one wins the conditional create, the other hits
`ConditionalCheckFailedException` and performs the atomic add; the final
count is 0 + 2. -/
theorem increment_usage_no_lost_updates_witness :
    Relation.ReflTransGen IncStep
      ⟨none, List.replicate 2 ProcPhase.start⟩
      ⟨some 2, [ProcPhase.done, ProcPhase.done]⟩
    ∧ (⟨some 2, [ProcPhase.done, ProcPhase.done]⟩ : CState).store.getD 0 = 0 + 2 := by
  have tr : Relation.ReflTransGen IncStep
      ⟨none, List.replicate 2 ProcPhase.start⟩
      ⟨some 2, [ProcPhase.done, ProcPhase.done]⟩ :=
    Relation.ReflTransGen.head
      (IncStep.create 0 [ProcPhase.start, ProcPhase.start] rfl)
      (Relation.ReflTransGen.head
        (IncStep.condFail 1 1 [ProcPhase.done, ProcPhase.start] rfl)
        (Relation.ReflTransGen.head
          (IncStep.add 1 (some 1) [ProcPhase.done, ProcPhase.needsAdd] rfl)
          Relation.ReflTransGen.refl))
  exact ⟨tr, increment_usage_no_lost_updates 0 2
    ⟨none, List.replicate 2 ProcPhase.start⟩
    ⟨some 2, [ProcPhase.done, ProcPhase.done]⟩ rfl rfl tr (by decide)⟩

/-- C8 (amended): `search_faiss` returns at most k results (k being the
length of the FAISS output), and every returned entry is some record of the
array annotated with a raw distance under `"score"`.  The amendment: the
guard `idx < len(metadata)` skips only indices that are too large; the
label −1, which FAISS emits when the index holds fewer than k vectors, is
not skipped — Python negative indexing turns it into the last record, so
the result can be padded up to k with copies of the last record (see the
counterexample `search_faiss_pads_with_negative_index`). -/
theorem search_faiss_bounded (out : List (ℚ × Int)) (metadata : List Record)
    (res : List Record) (h : search_faiss out metadata = .ok res) :
    res.length ≤ out.length ∧
      ∀ r ∈ res, ∃ m ∈ metadata, ∃ d : ℚ, r = dictSet m "score" (JVal.num d) := by
  induction out generalizing res with
  | nil =>
    simp [search_faiss] at h
    subst h
    simp
  | cons p rest ih =>
    obtain ⟨d, idx⟩ := p
    simp only [search_faiss] at h
    split at h
    · cases hg : pyGet metadata idx with
      | none => rw [hg] at h; simp at h
      | some r =>
        rw [hg] at h
        cases hrec : search_faiss rest metadata with
        | error e => rw [hrec] at h; simp at h
        | ok results =>
          rw [hrec] at h
          simp only [Except.ok.injEq] at h
          subst h
          obtain ⟨hlen, hmem⟩ := ih results hrec
          constructor
          · simp only [List.length_cons]
            omega
          · intro r2 hr2
            rcases List.mem_cons.mp hr2 with hEq | hTail
            · exact ⟨r, pyGet_mem hg, d, hEq⟩
            · exact hmem r2 hTail
    · obtain ⟨hlen, hmem⟩ := ih res h
      exact ⟨Nat.le_succ_of_le hlen, hmem⟩

/-- Witness for C8 (amended): a single in-range result. -/
theorem search_faiss_bounded_witness :
    search_faiss [((2 : ℚ), (0 : Int))] [recA]
      = .ok [dictSet recA "score" (JVal.num 2)]
    ∧ ([dictSet recA "score" (JVal.num 2)].length
          ≤ ([((2 : ℚ), (0 : Int))] : List (ℚ × Int)).length
        ∧ ∀ r ∈ [dictSet recA "score" (JVal.num 2)],
            ∃ m ∈ [recA], ∃ d : ℚ, r = dictSet m "score" (JVal.num d)) :=
  ⟨rfl, search_faiss_bounded [((2 : ℚ), (0 : Int))] [recA]
    [dictSet recA "score" (JVal.num 2)] rfl⟩

/-- Counterexample for C8 as stated: with a single record and the FAISS
output `[(1, 0), (9, -1), (9, -1)]` (labels −1 mark missing neighbors, as
FAISS produces when the index holds fewer than k = 3 vectors), the guard
`idx < len(metadata)` accepts −1 and Python negative indexing reads the
last record, so the result has 3 = k entries built from a 1-record array —
the result IS padded to k, contradicting the claim. -/
theorem search_faiss_pads_with_negative_index :
    search_faiss [(1, 0), (9, -1), (9, -1)] [recA]
      = .ok [[("repository", JVal.str "repo-a"), ("score", JVal.num 1)],
             [("repository", JVal.str "repo-a"), ("score", JVal.num 9)],
             [("repository", JVal.str "repo-a"), ("score", JVal.num 9)]]
    ∧ ([recA] : List Record).length = 1 := ⟨rfl, rfl⟩

/-- C1 (code bug): `search_faiss` annotates each returned record with the
raw FAISS distance under the key `"score"` — there is no
`similarity = 1 / (1 + d)` transform anywhere in the handler.  With
distances 2 and 5 the annotated values are 2 and 5: not equal to the
claimed `1 / (1 + d)`, not inside (0,1], and ascending (non-decreasing
distance), so as similarity scores they are not non-increasing.  The repo's
own test `src/scripts/test_local.py` reads `similarity_score` from the
response, which this code never produces. -/
theorem search_faiss_score_is_raw_distance :
    search_faiss [(2, 0), (5, 1)] [recA, recB]
      = .ok [[("repository", JVal.str "repo-a"), ("score", JVal.num 2)],
             [("repository", JVal.str "repo-b"), ("score", JVal.num 5)]]
    ∧ (2 : ℚ) ≠ 1 / (1 + 2)
    ∧ ¬ ((2 : ℚ) ≤ 1)
    ∧ ¬ ((5 : ℚ) ≤ (2 : ℚ)) := by
  refine ⟨rfl, by norm_num, by norm_num, by norm_num⟩

/-- C4 (amended): `load_index_for_org` performs no verification at all —
whatever pair the cache or storage holds is returned as-is (and cached on a
miss), even when the index's vector count differs from the record array's
length; the source defines no `IndexCorruptError`, so vector count = record
count is NOT guaranteed post-load. -/
theorem load_index_returns_stored_pair (cache : OrgCache)
    (s3 : String → Option (FaissIndex × List Record)) (org : String)
    (pair : FaissIndex × List Record) (cache2 : OrgCache)
    (h : load_index_for_org cache s3 org = .ok (pair, cache2)) :
    cache.lookup org = some pair ∨ s3 org = some pair := by
  unfold load_index_for_org at h
  cases hc : cache.lookup org with
  | some p =>
    rw [hc] at h
    simp at h
    exact Or.inl (by rw [h.1])
  | none =>
    rw [hc] at h
    cases hs : s3 org with
    | none => rw [hs] at h; simp at h
    | some p =>
      rw [hs] at h
      simp at h
      exact Or.inr (by rw [h.1])

/-- Witness for C4 (amended): a cache miss returns exactly the pair held in
storage. -/
theorem load_index_returns_stored_pair_witness :
    load_index_for_org [] s3_mismatch "acme"
      = .ok (((⟨2⟩ : FaissIndex), [recA]),
             [("acme", ((⟨2⟩ : FaissIndex), [recA]))])
    ∧ (([] : OrgCache).lookup "acme" = some ((⟨2⟩ : FaissIndex), [recA])
        ∨ s3_mismatch "acme" = some ((⟨2⟩ : FaissIndex), [recA])) :=
  ⟨rfl, load_index_returns_stored_pair [] s3_mismatch "acme"
    ((⟨2⟩ : FaissIndex), [recA]) [("acme", ((⟨2⟩ : FaissIndex), [recA]))] rfl⟩

/-- Counterexample for C4 as stated: storage for org "acme" holds an index
of 2 vectors paired with a 1-record array; `load_index_for_org` returns the
mismatched pair successfully (and caches it) instead of failing fast with
`IndexCorruptError` — no such check or error exists in the source. -/
theorem load_index_no_mismatch_check :
    load_index_for_org [] s3_mismatch "acme"
      = .ok (((⟨2⟩ : FaissIndex), [recA]),
             [("acme", ((⟨2⟩ : FaissIndex), [recA]))])
    ∧ (FaissIndex.mk 2).ntotal ≠ ([recA] : List Record).length :=
  ⟨rfl, by decide⟩

/-- C5 (code bug): on an 8001-character input, the query-time
`get_embedding` submits the full 8001-character text to the embedding
backend — the source contains no truncation — while the offline builder
`generate_embeddings` submits only the first 8000 characters
(`text[:8000]`). -/
theorem get_embedding_no_truncation :
    (get_embedding_submitted (List.replicate 8001 'a')).length = 8001
    ∧ ¬ ((get_embedding_submitted (List.replicate 8001 'a')).length ≤ 8000)
    ∧ (generate_embeddings_submitted (List.replicate 8001 'a')).length = 8000 := by
  refine ⟨?_, ?_, ?_⟩
  · simp only [get_embedding_submitted, List.length_replicate]
  · simp only [get_embedding_submitted, List.length_replicate]
    omega
  · simp only [generate_embeddings_submitted, List.length_take,
      List.length_replicate]
    omega

/-- C6: with the finite tier limits of the source (`anonymous` 3, `free`
10), exactly L failure-free `increment_usage` calls starting from no record
leave the persisted count at L, and `check_usage_limits` then returns
`allowed = false`, `searches_remaining = 0` and `upgrade_needed = true`;
for tier `pro` (limit `float('inf')`) the check allows every count. -/
theorem check_usage_limits_quota_exhaustion :
    (increment_applied^[3] none = some 3
      ∧ check_usage_limits (.ok (some 3)) "anonymous"
          = ⟨false, 3, .fin 0, "anonymous", true⟩)
    ∧ (increment_applied^[10] none = some 10
      ∧ check_usage_limits (.ok (some 10)) "free"
          = ⟨false, 10, .fin 0, "free", true⟩)
    ∧ (∀ c : Nat, (check_usage_limits (.ok (some c)) "pro").allowed = true) :=
  ⟨⟨rfl, rfl⟩, ⟨rfl, rfl⟩, fun _ => rfl⟩

/-- C7: when the counter-store read raises, `check_usage_limits` swallows
the exception and fails open for every tier — `allowed = true`, zero used,
a default remaining quota of 3 for `anonymous` and 10 otherwise, and no
upgrade flag; consequently a request against a failing counter store still
completes with a 200 response (second conjunct), never a user-visible
error. -/
theorem check_usage_limits_fail_open (tier : String) :
    check_usage_limits (.error ()) tier
      = ⟨true, 0, .fin (if tier = "anonymous" then 3 else 10), tier, false⟩
    ∧ (lambda_handler req_query env_read_fail []).1.statusCode = 200 :=
  ⟨rfl, rfl⟩

/-- C9: whenever the parsed body's query field is missing or empty,
`lambda_handler` returns the 400 client-error response immediately, with an
empty external-call trace: no identity resolution, no usage read or write,
no index load, no embedding request, no search and no synthesis call. -/
theorem lambda_handler_missing_query_short_circuits
    (req : RequestBody) (env : Env) (cache : OrgCache)
    (h : req.queryField.getD "" = "") :
    lambda_handler req env cache
      = (⟨400, [("error", JVal.str "Query parameter required")]⟩, []) := by
  simp [lambda_handler, h]

/-- Witness for C9: a request with no query field at all. -/
theorem lambda_handler_missing_query_witness :
    (({ queryField := none, orgField := none, kField := none } :
        RequestBody).queryField.getD "" = "")
    ∧ lambda_handler
        { queryField := none, orgField := none, kField := none } env_success []
        = (⟨400, [("error", JVal.str "Query parameter required")]⟩, []) :=
  ⟨rfl, lambda_handler_missing_query_short_circuits
    { queryField := none, orgField := none, kField := none } env_success [] rfl⟩

/-- C2 (code bug): a fully successful request produces status 200, and the
body does carry the answer text, the resolved org and the elapsed time —
but the ranked records sit under the key `"results"` with the raw distance
under `"score"`; there is no `"repositories"` key and no
`"similarity_score"` field, although the repo's own test
`src/scripts/test_local.py` reads `body['repositories']` and
`repo['similarity_score']` from this very handler's response. -/
theorem lambda_handler_envelope_diverges :
    (lambda_handler req_query env_success []).1.statusCode = 200
    ∧ (lambda_handler req_query env_success []).1.body.lookup "answer"
        = some (JVal.str "Based on the search results, repo-a is most relevant.")
    ∧ (lambda_handler req_query env_success []).1.body.lookup "org"
        = some (JVal.str "aws-samples")
    ∧ (lambda_handler req_query env_success []).1.body.lookup "total_time"
        = some (JVal.num 1)
    ∧ (lambda_handler req_query env_success []).1.body.lookup "results"
        = some (JVal.arr [JVal.obj
            [("repository", JVal.str "repo-a"), ("score", JVal.num 2)]])
    ∧ (lambda_handler req_query env_success []).1.body.lookup "repositories"
        = none
    ∧ ([("repository", JVal.str "repo-a"), ("score", JVal.num 2)] :
        Record).lookup "similarity_score" = none :=
  ⟨rfl, rfl, rfl, rfl, rfl, rfl, rfl⟩

/-- Counterexample for C10 as stated: when the usage record already exists
(count 1) and the `update_item` call raises, the exception escapes
`increment_usage` — it is raised inside the first `except` clause, where
the sibling `except Exception` clause cannot catch it — and the pipeline
answers 500, not a success response. -/
theorem increment_update_failure_propagates :
    increment_usage (some 1) false true = .error "update_item failed"
    ∧ (lambda_handler req_query env_upd_fail []).1.statusCode = 500 :=
  ⟨rfl, rfl⟩

/-- C10 (amended): only a failure of the conditional create is swallowed:
if `put_item` raises a non-conditional store error, `increment_usage`
merely logs it, leaves the count unchanged and the pipeline still serves a
200 success response; but when the record exists and the fallback
`update_item` raises, the error propagates to `lambda_handler`, which
converts it to a 500 response. -/
theorem increment_usage_failure_policy :
    (∀ (store : Option Nat) (u : Bool), increment_usage store true u = .ok store)
    ∧ (∀ c : Nat, increment_usage (some c) false true
        = .error "update_item failed")
    ∧ (lambda_handler req_query env_put_fail []).1.statusCode = 200 :=
  ⟨fun _ _ => rfl, fun _ => rfl, rfl⟩
